import Mathlib

/-!
Verification development for the LLM Judge + Chatbot frontend
(React/TypeScript) and its specified evaluation core.

Shallow embedding of:
  * the TypeScript data model (frontend/src/types/index.ts),
  * the traffic-light indicator (TrafficLight component, `getIndicator`),
  * the inline per-message traffic light (Message.tsx, `getTrafficLightColor`),
  * the per-criterion display bounds of the JudgePanel,
  * the ChatUI WebSocket event handlers as a step function on the
    component state (ChatUI.tsx),
  * the retry control (ChatUI.tsx, `handleRetry`),
  * the WebSocket client's `send` guard (services/websocket.ts),
  * the spec-described Evaluation Engine aggregate (backend not in tree).

Scores, weights and thresholds are TypeScript `number`s used as exact
decimal quantities here; they are embedded as rationals (ℚ).
-/

/-- `MessageRole` from frontend/src/types/index.ts: user / assistant / system. -/
inductive MessageRole
  | user
  | assistant
  | system
deriving DecidableEq

/-- `CriterionScore` from frontend/src/types/index.ts. -/
structure CriterionScore where
  name : String
  score : ℚ
  weight : ℚ
  threshold : ℚ
  passed : Bool
  feedback : Option String
deriving DecidableEq

/-- `JudgeEvaluation` from frontend/src/types/index.ts. -/
structure JudgeEvaluation where
  overall_score : ℚ
  criteria_scores : List CriterionScore
  feedback : String
  should_regenerate : Bool
  suggestions : List String
  traffic_light : String
deriving DecidableEq

/-- The `metadata` record attached to a message.  In the TypeScript source it
is an untyped `Record<string, any>`; the ChatUI code reads and writes exactly
the fields `iteration`, `evaluation`, `streaming_evaluation` and
`inputEvaluation`, so those are the fields embedded here. -/
structure MessageMetadata where
  iteration : Option Nat
  evaluation : Option JudgeEvaluation
  streaming_evaluation : Option JudgeEvaluation
  inputEvaluation : Option JudgeEvaluation
deriving DecidableEq

/-- `Message` from frontend/src/types/index.ts. -/
structure Message where
  id : String
  role : MessageRole
  content : String
  timestamp : String
  metadata : MessageMetadata
deriving DecidableEq

/-- Empty metadata (`metadata: {}` in the source). -/
def emptyMetadata : MessageMetadata :=
  { iteration := none, evaluation := none, streaming_evaluation := none,
    inputEvaluation := none }

/-- `getIndicator` from the TrafficLight component (src/unnamed/part_003):
`if (score >= greenThreshold) return '🟢'; if (score >= orangeThreshold)
return '🟠'; return '🔴';`. -/
def getIndicator (score greenThreshold orangeThreshold : ℚ) : String :=
  if score ≥ greenThreshold then "🟢"
  else if score ≥ orangeThreshold then "🟠"
  else "🔴"

/-- Default `greenThreshold` of the TrafficLight component props. -/
def defaultGreenThreshold : ℚ := 70

/-- Default `orangeThreshold` of the TrafficLight component props. -/
def defaultOrangeThreshold : ℚ := 40

/-- `getTrafficLightColor` from Message.tsx: fixed bounds 70 / 40. -/
def getTrafficLightColor (score : ℚ) : String :=
  if score ≥ 70 then "🟢"
  else if score ≥ 40 then "🟠"
  else "🔴"

/-- JudgePanel criteria breakdown (src/unnamed/part_002): each criterion is
rendered with `TrafficLight score={criterion.score}
greenThreshold={criterion.threshold}
orangeThreshold={criterion.threshold * 0.7}`. -/
def criterionTrafficLight (c : CriterionScore) : String :=
  getIndicator c.score c.threshold (c.threshold * (0.7 : ℚ))

/-- JudgePanel overall score light: `TrafficLight score={overall_score}` with
the component's default bounds. -/
def overallTrafficLight (overall : ℚ) : String :=
  getIndicator overall defaultGreenThreshold defaultOrangeThreshold

theorem getIndicator_green_iff (s g o : ℚ) :
    getIndicator s g o = "🟢" ↔ g ≤ s := by
  unfold getIndicator
  split_ifs with h1 h2
  · exact iff_of_true rfl h1
  · exact iff_of_false (by decide) h1
  · exact iff_of_false (by decide) h1

theorem getIndicator_orange_iff (s g o : ℚ) :
    getIndicator s g o = "🟠" ↔ o ≤ s ∧ s < g := by
  unfold getIndicator
  split_ifs with h1 h2
  · exact iff_of_false (by decide) (fun hc => absurd h1 (not_le.mpr hc.2))
  · exact iff_of_true rfl ⟨h2, not_le.mp h1⟩
  · exact iff_of_false (by decide) (fun hc => h2 hc.1)

theorem getIndicator_red_iff (s g o : ℚ) (h : o ≤ g) :
    getIndicator s g o = "🔴" ↔ s < o := by
  unfold getIndicator
  split_ifs with h1 h2
  · exact iff_of_false (by decide) (fun hc => absurd (le_trans h h1) (not_le.mpr hc))
  · exact iff_of_false (by decide) (fun hc => absurd h2 (not_le.mpr hc))
  · exact iff_of_true rfl (not_le.mp h2)

theorem getIndicator_exhaustive (s g o : ℚ) :
    getIndicator s g o = "🟢" ∨ getIndicator s g o = "🟠" ∨
      getIndicator s g o = "🔴" := by
  unfold getIndicator
  split_ifs <;> simp

/-- C1: for every score in [0,100] and bounds with
`green_threshold > orange_threshold ≥ 0`, the traffic-light classification
of `getIndicator` is green iff `score ≥ green_threshold`, orange iff
`orange_threshold ≤ score < green_threshold`, red iff
`score < orange_threshold`, and the three buckets are exhaustive (mutual
exclusivity follows from the three iff characterisations, whose right-hand
sides are pairwise incompatible). -/
theorem trafficLight_buckets (s g o : ℚ) (ho : 0 ≤ o) (hgo : o < g)
    (hs0 : 0 ≤ s) (hs1 : s ≤ 100) :
    (getIndicator s g o = "🟢" ↔ g ≤ s) ∧
    (getIndicator s g o = "🟠" ↔ o ≤ s ∧ s < g) ∧
    (getIndicator s g o = "🔴" ↔ s < o) ∧
    (getIndicator s g o = "🟢" ∨ getIndicator s g o = "🟠" ∨
      getIndicator s g o = "🔴") :=
  ⟨getIndicator_green_iff s g o, getIndicator_orange_iff s g o,
   getIndicator_red_iff s g o (le_of_lt hgo), getIndicator_exhaustive s g o⟩

/-- C1 witness: the characterisation instantiated at score 50 with bounds
70 / 40. -/
theorem trafficLight_buckets_witness :
    (getIndicator 50 70 40 = "🟢" ↔ (70 : ℚ) ≤ 50) ∧
    (getIndicator 50 70 40 = "🟠" ↔ (40 : ℚ) ≤ 50 ∧ (50 : ℚ) < 70) ∧
    (getIndicator 50 70 40 = "🔴" ↔ (50 : ℚ) < 40) ∧
    (getIndicator 50 70 40 = "🟢" ∨ getIndicator 50 70 40 = "🟠" ∨
      getIndicator 50 70 40 = "🔴") :=
  trafficLight_buckets 50 70 40 (by norm_num) (by norm_num) (by norm_num)
    (by norm_num)

/-- C9: the inline per-message traffic light of Message.tsx uses the fixed
bounds 70 / 40 — green iff score ≥ 70, orange iff 40 ≤ score < 70, red iff
score < 40 — and agrees with `getIndicator` at the TrafficLight component's
default bound pair. -/
theorem getTrafficLightColor_fixed_bounds (s : ℚ) :
    (getTrafficLightColor s = "🟢" ↔ 70 ≤ s) ∧
    (getTrafficLightColor s = "🟠" ↔ 40 ≤ s ∧ s < 70) ∧
    (getTrafficLightColor s = "🔴" ↔ s < 40) ∧
    getTrafficLightColor s =
      getIndicator s defaultGreenThreshold defaultOrangeThreshold := by
  have hdef : getTrafficLightColor s =
      getIndicator s defaultGreenThreshold defaultOrangeThreshold := rfl
  refine ⟨?_, ?_, ?_, hdef⟩
  · rw [hdef]; exact getIndicator_green_iff s _ _
  · rw [hdef]; exact getIndicator_orange_iff s _ _
  · rw [hdef]
    exact getIndicator_red_iff s _ _ (by norm_num [defaultGreenThreshold, defaultOrangeThreshold])

/-- `Criterion` from frontend/src/types/index.ts (mirrors the backend's
criteria configuration entries). -/
structure Criterion where
  name : String
  description : String
  weight : ℚ
  enabled : Bool
  threshold : ℚ
deriving DecidableEq

/-- The spec's `EvaluationError` failure variant. -/
inductive EvalFailure
  | evaluationError
deriving DecidableEq

/-- Modelled from the spec: the backend Evaluation Engine's regeneration
decision (its implementation is not under src/):
`should_regenerate = overall < active_profile.overall_threshold OR
∃ enabled criterion with score < its own threshold`.  It takes only the
overall score, the active profile threshold, and the per-criterion
scores/thresholds — the display-only secondary orange bound
(`threshold * 0.7`) is not an input. -/
def shouldRegenerate (overall profileThreshold : ℚ)
    (results : List CriterionScore) : Bool :=
  decide (overall < profileThreshold) ||
    results.any (fun r => decide (r.score < r.threshold))

/-- C7: each criterion's light in the JudgePanel breakdown follows the same
bucket rule as the overall light (`getIndicator`) with the criterion's own
bound pair — green bound = its threshold, orange bound = 0.7 × threshold —
and the regeneration decision is characterised purely by overall vs profile
threshold and score vs pass threshold, never by the secondary orange bound. -/
theorem criterionTrafficLight_display_only (c : CriterionScore)
    (h : 0 ≤ c.threshold) (overall pt : ℚ) (rs : List CriterionScore) :
    criterionTrafficLight c =
      getIndicator c.score c.threshold (c.threshold * (0.7 : ℚ)) ∧
    (criterionTrafficLight c = "🟢" ↔ c.threshold ≤ c.score) ∧
    (criterionTrafficLight c = "🟠" ↔
      c.threshold * (0.7 : ℚ) ≤ c.score ∧ c.score < c.threshold) ∧
    (criterionTrafficLight c = "🔴" ↔ c.score < c.threshold * (0.7 : ℚ)) ∧
    (shouldRegenerate overall pt rs = true ↔
      overall < pt ∨ ∃ r ∈ rs, r.score < r.threshold) := by
  refine ⟨rfl, getIndicator_green_iff _ _ _, getIndicator_orange_iff _ _ _,
    getIndicator_red_iff _ _ _ (by nlinarith), ?_⟩
  simp [shouldRegenerate, List.any_eq_true]

/-- C7 witness: a concrete criterion with threshold 60 and score 45, and a
concrete regeneration decision. -/
theorem criterionTrafficLight_display_only_witness :
    (criterionTrafficLight
        { name := "bias", score := 45, weight := 1, threshold := 60,
          passed := false, feedback := none } =
      getIndicator 45 60 (60 * (0.7 : ℚ))) ∧
    (criterionTrafficLight
        { name := "bias", score := 45, weight := 1, threshold := 60,
          passed := false, feedback := none } = "🟢" ↔ (60 : ℚ) ≤ 45) ∧
    (criterionTrafficLight
        { name := "bias", score := 45, weight := 1, threshold := 60,
          passed := false, feedback := none } = "🟠" ↔
      (60 : ℚ) * (0.7 : ℚ) ≤ 45 ∧ (45 : ℚ) < 60) ∧
    (criterionTrafficLight
        { name := "bias", score := 45, weight := 1, threshold := 60,
          passed := false, feedback := none } = "🔴" ↔
      (45 : ℚ) < 60 * (0.7 : ℚ)) ∧
    (shouldRegenerate 80 70 [] = true ↔
      (80 : ℚ) < 70 ∨ ∃ r ∈ ([] : List CriterionScore), r.score < r.threshold) :=
  criterionTrafficLight_display_only
    { name := "bias", score := 45, weight := 1, threshold := 60,
      passed := false, feedback := none } (by norm_num) 80 70 []

/-- Modelled from the spec: the backend Evaluation Engine's
`evaluate(content, criteria, on_criterion_result)` aggregate (the backend
implementation is not under src/).  The judge capability is abstracted as a
scoring function; the first component of the result is the list of
capability calls made (one per enabled criterion, in declaration order), so
that "fail before any capability call" is observable: when the enabled
weights sum to zero the call list is empty and the result is
`EvaluationError`; otherwise the overall score is
`Σ(score_i · weight_i) / Σ(weight_i)` over the enabled criteria. -/
def evaluate (criteria : List Criterion) (judge : Criterion → ℚ) :
    List String × Except EvalFailure ℚ :=
  let enabled := criteria.filter (fun c => c.enabled)
  let totalWeight := (enabled.map (fun c => c.weight)).sum
  if totalWeight = 0 then
    ([], Except.error EvalFailure.evaluationError)
  else
    (enabled.map (fun c => c.name),
     Except.ok ((enabled.map (fun c => judge c * c.weight)).sum / totalWeight))

/-- C5: `evaluate` returns the weighted mean
`Σ(s_i·w_i)/Σ(w_i)` over enabled criteria, and when the enabled weights sum
to zero it fails with `EvaluationError` having made no capability call. -/
theorem evaluate_weighted_mean (criteria : List Criterion)
    (judge : Criterion → ℚ) :
    (((criteria.filter (fun c => c.enabled)).map (fun c => c.weight)).sum = 0 →
      evaluate criteria judge = ([], Except.error EvalFailure.evaluationError)) ∧
    (((criteria.filter (fun c => c.enabled)).map (fun c => c.weight)).sum ≠ 0 →
      evaluate criteria judge =
        ((criteria.filter (fun c => c.enabled)).map (fun c => c.name),
         Except.ok
           (((criteria.filter (fun c => c.enabled)).map
               (fun c => judge c * c.weight)).sum /
             ((criteria.filter (fun c => c.enabled)).map
               (fun c => c.weight)).sum))) := by
  constructor
  · intro h
    simp [evaluate, h]
  · intro h
    simp [evaluate, h]

/-- C5 witness: a disabled-plus-zero-weight set fails with no calls; a set
with weights 0.5/0.5 and scores 80/60 yields overall 70. -/
theorem evaluate_weighted_mean_witness :
    evaluate
        [{ name := "accuracy", description := "", weight := 0, enabled := true,
           threshold := 70 }]
        (fun _ => 80) = ([], Except.error EvalFailure.evaluationError) ∧
    evaluate
        [{ name := "accuracy", description := "", weight := 1/2,
           enabled := true, threshold := 70 },
         { name := "relevance", description := "", weight := 1/2,
           enabled := true, threshold := 70 }]
        (fun c => if c.name = "accuracy" then 80 else 60) =
      (["accuracy", "relevance"], Except.ok 70) := by
  constructor
  · exact
      (evaluate_weighted_mean
        [{ name := "accuracy", description := "", weight := 0, enabled := true,
           threshold := 70 }] (fun _ => 80)).1 (by simp)
  · have h :=
      (evaluate_weighted_mean
        [{ name := "accuracy", description := "", weight := 1/2,
           enabled := true, threshold := 70 },
         { name := "relevance", description := "", weight := 1/2,
           enabled := true, threshold := 70 }]
        (fun c => if c.name = "accuracy" then 80 else 60)).2 (by norm_num)
    rw [h]
    norm_num
    rw [if_neg (by decide : ¬ ("relevance" = "accuracy"))]
    norm_num

/-- Ready states of a browser WebSocket; `WebSocket.OPEN` is `opened`. -/
inductive SocketReadyState
  | connecting
  | opened
  | closing
  | closed
deriving DecidableEq

/-- The underlying browser socket, reduced to the one field the client's
`send`/`isConnected` guards inspect. -/
structure Socket where
  readyState : SocketReadyState
deriving DecidableEq

/-- Observable state of `WebSocketClient` (src/unnamed/part_002): the socket
reference, the per-event-type handler registry (handlers identified by id),
and the reconnection counter. -/
structure WSClientState where
  ws : Option Socket
  url : String
  handlers : List (String × List Nat)
  reconnectAttempts : Nat
deriving DecidableEq

/-- An outbound frame as built by `WebSocketClient.send`. -/
structure WSFrame where
  event : String
  data : String
  timestamp : String
deriving DecidableEq

/-- `WebSocketClient.send`: transmit only when a socket exists and its
`readyState` is `OPEN`; otherwise log and return.  The second component is
the transmitted frame, `none` when nothing is sent; the returned state is
the (unchanged) client state. -/
def WSClientState.send (s : WSClientState) (eventType payload now : String) :
    WSClientState × Option WSFrame :=
  match s.ws with
  | some sock =>
      if sock.readyState = SocketReadyState.opened then
        (s, some { event := eventType, data := payload, timestamp := now })
      else
        (s, none)
  | none => (s, none)

/-- C10: when the socket is absent or not OPEN, `send` transmits nothing and
returns the client state unchanged (handler registry and socket reference
intact), without failing. -/
theorem send_not_connected_noop (s : WSClientState) (e p now : String)
    (h : s.ws = none ∨
      ∃ sock, s.ws = some sock ∧ sock.readyState ≠ SocketReadyState.opened) :
    s.send e p now = (s, none) := by
  rcases h with h | ⟨sock, hsock, hstate⟩
  · simp [WSClientState.send, h]
  · simp [WSClientState.send, hsock, hstate]

/-- C10 witness: a client whose socket is in the `closed` state. -/
theorem send_not_connected_noop_witness :
    WSClientState.send
        { ws := some { readyState := SocketReadyState.closed },
          url := "ws://localhost:8000/ws/chat", handlers := [("error", [0])],
          reconnectAttempts := 2 } "user_message" "hoi" "t0" =
      ({ ws := some { readyState := SocketReadyState.closed },
         url := "ws://localhost:8000/ws/chat", handlers := [("error", [0])],
         reconnectAttempts := 2 }, none) :=
  send_not_connected_noop
    { ws := some { readyState := SocketReadyState.closed },
      url := "ws://localhost:8000/ws/chat", handlers := [("error", [0])],
      reconnectAttempts := 2 } "user_message" "hoi" "t0"
    (Or.inr ⟨{ readyState := SocketReadyState.closed }, rfl, by decide⟩)

/-- The placeholder evaluation the ChatUI handlers build when no accumulator
exists yet: `{ criteria_scores: [], overall_score: 0, feedback: '',
should_regenerate: false, suggestions: [], traffic_light: '⚪' }`. -/
def emptyStreamingEval : JudgeEvaluation :=
  { overall_score := 0, criteria_scores := [], feedback := "",
    should_regenerate := false, suggestions := [], traffic_light := "⚪" }

/-- Append a streamed criterion result to an accumulating evaluation:
`{ ...prev, criteria_scores: [...prev.criteria_scores, criterion] }`. -/
def appendCriterion (e : JudgeEvaluation) (c : CriterionScore) :
    JudgeEvaluation :=
  { e with criteria_scores := e.criteria_scores ++ [c] }

/-- The `setMessages` updater of `handleUserInputEvaluation` (ChatUI.tsx):
map over the history, and on the message whose id matches, append the
criterion to its `metadata.inputEvaluation` (creating the accumulator if
absent); all other messages pass through untouched. -/
def handleUserInputEvaluation (messageId : String) (criterion : CriterionScore)
    (msgs : List Message) : List Message :=
  msgs.map fun m =>
    if m.id = messageId then
      let currentEval := m.metadata.inputEvaluation.getD emptyStreamingEval
      let updated := appendCriterion currentEval criterion
      { m with metadata := { m.metadata with inputEvaluation := some updated } }
    else m

/-- The `setMessages` updater of `handleJudgeCriterionResult` (ChatUI.tsx):
when the last history entry is an assistant message, replace its
`metadata.streaming_evaluation` with the updated accumulator; otherwise
leave the history unchanged. -/
def attachStreamingEvaluation (updated : JudgeEvaluation)
    (msgs : List Message) : List Message :=
  match msgs.getLast? with
  | some lastMsg =>
      if lastMsg.role = MessageRole.assistant then
        let newMeta :=
          { lastMsg.metadata with streaming_evaluation := some updated }
        msgs.dropLast ++ [{ lastMsg with metadata := newMeta }]
      else msgs
  | none => msgs

/-- The `setMessages` updater of `handleJudgeResult` (ChatUI.tsx): when the
last history entry is an assistant message, set its `metadata.evaluation` to
the final evaluation and clear its `metadata.streaming_evaluation`;
otherwise leave the history unchanged. -/
def attachFinalEvaluation (evaluation : JudgeEvaluation)
    (msgs : List Message) : List Message :=
  match msgs.getLast? with
  | some lastMsg =>
      if lastMsg.role = MessageRole.assistant then
        let newMeta :=
          { lastMsg.metadata with
              evaluation := some evaluation, streaming_evaluation := none }
        msgs.dropLast ++ [{ lastMsg with metadata := newMeta }]
      else msgs
  | none => msgs

/-- The ChatUI component state (the `useState` cells that the WebSocket
event handlers read and write). -/
structure ChatState where
  messages : List Message
  isLoading : Bool
  isJudging : Bool
  currentEvaluation : Option JudgeEvaluation
  streamingCriteria : Option JudgeEvaluation
  streamingMessage : String
  lastUserMessage : String
  conversationId : Option String
  inputEvaluation : Option JudgeEvaluation
  isStopped : Bool
deriving DecidableEq

/-- Inbound WebSocket events dispatched to the ChatUI handlers. -/
inductive WsEvent
  | chatbotGenerating
  | judgeInputCritique
  | chatbotChunk (chunk : String)
  | chatbotResponse (response : String) (iteration : Option Nat)
      (conversation_id : Option String)
  | judgeEvaluating
  | judgeCriterionResult (criterion : CriterionScore)
  | judgeResult (evaluation : JudgeEvaluation)
  | userInputEvaluation (criterion : CriterionScore) (message_id : String)
  | finalResponse
  | errorEvent (error : String)
deriving DecidableEq

/-- Observable outputs of the handlers besides state updates: the
`onEvaluationUpdate` / `onIterationUpdate` callbacks and the error alert. -/
inductive ChatOutput
  | evaluationUpdate (e : Option JudgeEvaluation)
  | iterationUpdate (i : Nat)
  | alertError (msg : String)
deriving DecidableEq

/-- One dispatch of an inbound WebSocket event through the ChatUI handlers
(ChatUI.tsx lines 38–172).  `now` abstracts `Date.now()` /
`new Date().toISOString()` for the fresh message id and timestamp.

The handlers are created and registered inside the `useEffect` whose
dependency array is `[onEvaluationUpdate, onIterationUpdate]` — two props
with stable identities (React state setters passed down by App.tsx) — so
the effect runs once at mount and each handler closes over the `isStopped`
binding of the initial render.  `capturedIsStopped` is that captured
binding: the guards `if (isStopped) return` in the chunk, judge-evaluating,
judge-criterion and judge-result handlers test it, not the live state
(whereas the functional `set*((prev) => ...)` updaters do read live state,
which is why the state argument `s` is threaded).  In the program as
mounted `capturedIsStopped = false`, so those guards never fire;
`handleGenerating` and `handleChatbotResponse` have no guard at all. -/
def step (capturedIsStopped : Bool) (now : Nat) (s : ChatState)
    (e : WsEvent) : ChatState × List ChatOutput :=
  match e with
  | WsEvent.chatbotGenerating =>
      ({ s with isLoading := true, currentEvaluation := none },
       [ChatOutput.evaluationUpdate none])
  | WsEvent.judgeInputCritique => (s, [])
  | WsEvent.chatbotChunk chunk =>
      if capturedIsStopped then (s, [])
      else ({ s with streamingMessage := s.streamingMessage ++ chunk }, [])
  | WsEvent.chatbotResponse response iteration conversation_id =>
      let newMessage : Message :=
        { id := "msg_" ++ toString now, role := MessageRole.assistant,
          content := response, timestamp := toString now,
          metadata := { emptyMetadata with iteration := iteration } }
      let s1 := { s with messages := s.messages ++ [newMessage],
                         streamingMessage := "", isLoading := false }
      let s2 := match conversation_id with
        | some cid => { s1 with conversationId := some cid }
        | none => s1
      (s2,
       match iteration with
       | some i => if i ≠ 0 then [ChatOutput.iterationUpdate i] else []
       | none => [])
  | WsEvent.judgeEvaluating =>
      if capturedIsStopped then (s, [])
      else ({ s with isJudging := true,
                     streamingCriteria := some emptyStreamingEval }, [])
  | WsEvent.judgeCriterionResult criterion =>
      if capturedIsStopped then (s, [])
      else
        let updated := match s.streamingCriteria with
          | some prev => appendCriterion prev criterion
          | none =>
              { emptyStreamingEval with criteria_scores := [criterion] }
        ({ s with streamingCriteria := some updated,
                  messages := attachStreamingEvaluation updated s.messages },
         [])
  | WsEvent.judgeResult evaluation =>
      if capturedIsStopped then (s, [])
      else
        ({ s with isJudging := false, currentEvaluation := some evaluation,
                  streamingCriteria := none,
                  messages := attachFinalEvaluation evaluation s.messages },
         [ChatOutput.evaluationUpdate (some evaluation)])
  | WsEvent.userInputEvaluation criterion message_id =>
      ({ s with
          messages := handleUserInputEvaluation message_id criterion s.messages,
          inputEvaluation := some (match s.inputEvaluation with
            | some prev => appendCriterion prev criterion
            | none =>
                { emptyStreamingEval with criteria_scores := [criterion] }) },
       [])
  | WsEvent.finalResponse =>
      ({ s with isLoading := false, isJudging := false }, [])
  | WsEvent.errorEvent error =>
      ({ s with isLoading := false }, [ChatOutput.alertError error])

/-- Dispatch a sequence of inbound events through handlers that captured
`capturedIsStopped`, threading the live state. -/
def runEvents (capturedIsStopped : Bool) (now : Nat) (s : ChatState)
    (es : List WsEvent) : ChatState :=
  es.foldl (fun st e => (step capturedIsStopped now st e).1) s

/-- The `handleStop` control (ChatUI.tsx lines 238–243). -/
def handleStop (s : ChatState) : ChatState :=
  { s with isStopped := true, isLoading := false, isJudging := false,
           streamingMessage := "" }

/-- `ConversationMode` from frontend/src/types/index.ts. -/
inductive ConversationMode
  | simple
  | feedback
  | input_critique
deriving DecidableEq

/-- The `user_message` payload sent by `handleRetry` (ChatUI.tsx). -/
structure RetryPayload where
  message : String
  conversation_id : Option String
  mode : ConversationMode
  message_id : Option String
  skip_user_evaluation : Bool
deriving DecidableEq

/-- The id-lookup loop inside `handleRetry`: scan the history from the end
for the last user message whose content equals `lastUserMessage`. -/
def findLastUserMessageId (msgs : List Message) (content : String) :
    Option String :=
  (msgs.reverse.find? fun m =>
    decide (m.role = MessageRole.user) && decide (m.content = content)).map
    (fun m => m.id)

/-- The history update inside `handleRetry`: drop the last message exactly
when it is an assistant message. -/
def retryMessages (msgs : List Message) : List Message :=
  match msgs.getLast? with
  | some lastMsg =>
      if lastMsg.role = MessageRole.assistant then msgs.dropLast else msgs
  | none => msgs

/-- `handleRetry` (ChatUI.tsx lines 245–279): guarded by
`if (!lastUserMessage || isLoading || isJudging) return` (`none` = no
action); otherwise returns the updated history together with the
`user_message` payload re-submitting `lastUserMessage` with
`skip_user_evaluation: true`. -/
def handleRetry (msgs : List Message) (lastUserMessage : String)
    (conversationId : Option String) (mode : ConversationMode)
    (isLoading isJudging : Bool) :
    Option (List Message × RetryPayload) :=
  if lastUserMessage = "" || isLoading || isJudging then none
  else
    some (retryMessages msgs,
      { message := lastUserMessage, conversation_id := conversationId,
        mode := mode, message_id := findLastUserMessageId msgs lastUserMessage,
        skip_user_evaluation := true })

/-- C3: when retry fires (non-empty last user content, not loading, not
judging), the history loses its final message exactly when that message is
an assistant message — otherwise it is unchanged — and the same user
content is re-submitted with `skip_user_evaluation = true`. -/
theorem handleRetry_drops_assistant_and_resubmits (msgs : List Message)
    (lastUserMessage : String) (conversationId : Option String)
    (mode : ConversationMode) (h : lastUserMessage ≠ "") :
    ∃ p : RetryPayload,
      handleRetry msgs lastUserMessage conversationId mode false false =
        some (retryMessages msgs, p) ∧
      (∀ lastMsg, msgs.getLast? = some lastMsg →
        lastMsg.role = MessageRole.assistant →
        retryMessages msgs = msgs.dropLast) ∧
      (∀ lastMsg, msgs.getLast? = some lastMsg →
        lastMsg.role ≠ MessageRole.assistant → retryMessages msgs = msgs) ∧
      (msgs.getLast? = none → retryMessages msgs = msgs) ∧
      p.message = lastUserMessage ∧
      p.skip_user_evaluation = true := by
  refine ⟨{ message := lastUserMessage, conversation_id := conversationId,
            mode := mode,
            message_id := findLastUserMessageId msgs lastUserMessage,
            skip_user_evaluation := true }, ?_, ?_, ?_, ?_, rfl, rfl⟩
  · simp [handleRetry, h]
  · intro lastMsg hlast hrole
    simp [retryMessages, hlast, hrole]
  · intro lastMsg hlast hrole
    simp [retryMessages, hlast, hrole]
  · intro hnone
    simp [retryMessages, hnone]

/-- C3 witness: a two-message history ending in an assistant message. -/
theorem handleRetry_drops_assistant_and_resubmits_witness :
    ∃ p : RetryPayload,
      handleRetry
          [{ id := "u1", role := MessageRole.user, content := "vraag",
             timestamp := "t1", metadata := emptyMetadata },
           { id := "a1", role := MessageRole.assistant, content := "antwoord",
             timestamp := "t2", metadata := emptyMetadata }]
          "vraag" none ConversationMode.input_critique false false =
        some (retryMessages
          [{ id := "u1", role := MessageRole.user, content := "vraag",
             timestamp := "t1", metadata := emptyMetadata },
           { id := "a1", role := MessageRole.assistant, content := "antwoord",
             timestamp := "t2", metadata := emptyMetadata }], p) ∧
      (∀ lastMsg,
        ([{ id := "u1", role := MessageRole.user, content := "vraag",
            timestamp := "t1", metadata := emptyMetadata },
          { id := "a1", role := MessageRole.assistant, content := "antwoord",
            timestamp := "t2", metadata := emptyMetadata }] :
            List Message).getLast? = some lastMsg →
        lastMsg.role = MessageRole.assistant →
        retryMessages
          [{ id := "u1", role := MessageRole.user, content := "vraag",
             timestamp := "t1", metadata := emptyMetadata },
           { id := "a1", role := MessageRole.assistant, content := "antwoord",
             timestamp := "t2", metadata := emptyMetadata }] =
          ([{ id := "u1", role := MessageRole.user, content := "vraag",
              timestamp := "t1", metadata := emptyMetadata },
            { id := "a1", role := MessageRole.assistant, content := "antwoord",
              timestamp := "t2", metadata := emptyMetadata }] :
              List Message).dropLast) ∧
      (∀ lastMsg,
        ([{ id := "u1", role := MessageRole.user, content := "vraag",
            timestamp := "t1", metadata := emptyMetadata },
          { id := "a1", role := MessageRole.assistant, content := "antwoord",
            timestamp := "t2", metadata := emptyMetadata }] :
            List Message).getLast? = some lastMsg →
        lastMsg.role ≠ MessageRole.assistant →
        retryMessages
          [{ id := "u1", role := MessageRole.user, content := "vraag",
             timestamp := "t1", metadata := emptyMetadata },
           { id := "a1", role := MessageRole.assistant, content := "antwoord",
             timestamp := "t2", metadata := emptyMetadata }] =
          [{ id := "u1", role := MessageRole.user, content := "vraag",
             timestamp := "t1", metadata := emptyMetadata },
           { id := "a1", role := MessageRole.assistant, content := "antwoord",
             timestamp := "t2", metadata := emptyMetadata }]) ∧
      (([{ id := "u1", role := MessageRole.user, content := "vraag",
           timestamp := "t1", metadata := emptyMetadata },
         { id := "a1", role := MessageRole.assistant, content := "antwoord",
           timestamp := "t2", metadata := emptyMetadata }] :
           List Message).getLast? = none →
        retryMessages
          [{ id := "u1", role := MessageRole.user, content := "vraag",
             timestamp := "t1", metadata := emptyMetadata },
           { id := "a1", role := MessageRole.assistant, content := "antwoord",
             timestamp := "t2", metadata := emptyMetadata }] =
          [{ id := "u1", role := MessageRole.user, content := "vraag",
             timestamp := "t1", metadata := emptyMetadata },
           { id := "a1", role := MessageRole.assistant, content := "antwoord",
             timestamp := "t2", metadata := emptyMetadata }]) ∧
      p.message = "vraag" ∧
      p.skip_user_evaluation = true :=
  handleRetry_drops_assistant_and_resubmits
    [{ id := "u1", role := MessageRole.user, content := "vraag",
       timestamp := "t1", metadata := emptyMetadata },
     { id := "a1", role := MessageRole.assistant, content := "antwoord",
       timestamp := "t2", metadata := emptyMetadata }]
    "vraag" none ConversationMode.input_critique (by decide)

/-- C6: `handleUserInputEvaluation` attaches the streamed critique criterion
to exactly the message whose id equals the event's `message_id` (its
input-evaluation criterion list gains that criterion at the end, all other
fields intact), while every message at a position whose id differs is left
entirely unchanged; the history length is preserved. -/
theorem handleUserInputEvaluation_targets_only_matching_id
    (msgs : List Message) (mid : String) (c : CriterionScore) (i : Nat)
    (m : Message) (h : msgs[i]? = some m) :
    (handleUserInputEvaluation mid c msgs).length = msgs.length ∧
    (m.id ≠ mid → (handleUserInputEvaluation mid c msgs)[i]? = some m) ∧
    (m.id = mid →
      ∃ r : Message, (handleUserInputEvaluation mid c msgs)[i]? = some r ∧
        r.id = m.id ∧ r.role = m.role ∧ r.content = m.content ∧
        r.timestamp = m.timestamp ∧
        r.metadata.iteration = m.metadata.iteration ∧
        r.metadata.evaluation = m.metadata.evaluation ∧
        r.metadata.streaming_evaluation = m.metadata.streaming_evaluation ∧
        r.metadata.inputEvaluation =
          some (appendCriterion
            (m.metadata.inputEvaluation.getD emptyStreamingEval) c)) := by
  refine ⟨by simp [handleUserInputEvaluation], ?_, ?_⟩
  · intro hne
    simp [handleUserInputEvaluation, List.getElem?_map, h, hne]
  · intro heq
    have hr : (handleUserInputEvaluation mid c msgs)[i]? =
        some { m with metadata :=
          { m.metadata with
              inputEvaluation := some (appendCriterion (m.metadata.inputEvaluation.getD emptyStreamingEval) c) } } := by
      simp [handleUserInputEvaluation, List.getElem?_map, h, heq]
    exact ⟨_, hr, rfl, rfl, rfl, rfl, rfl, rfl, rfl, rfl⟩

/-- C6 witness: a two-message history where only the message with id `u1`
receives the critique criterion. -/
theorem handleUserInputEvaluation_targets_only_matching_id_witness :
    (handleUserInputEvaluation "u1"
        { name := "privacy", score := 90, weight := 1, threshold := 70,
          passed := true, feedback := none }
        [{ id := "u1", role := MessageRole.user, content := "vraag",
           timestamp := "t1", metadata := emptyMetadata },
         { id := "a1", role := MessageRole.assistant, content := "antwoord",
           timestamp := "t2", metadata := emptyMetadata }]).length =
      ([{ id := "u1", role := MessageRole.user, content := "vraag",
          timestamp := "t1", metadata := emptyMetadata },
        { id := "a1", role := MessageRole.assistant, content := "antwoord",
          timestamp := "t2", metadata := emptyMetadata }] :
          List Message).length ∧
    (({ id := "u1", role := MessageRole.user, content := "vraag",
        timestamp := "t1", metadata := emptyMetadata } : Message).id ≠ "u1" →
      (handleUserInputEvaluation "u1"
        { name := "privacy", score := 90, weight := 1, threshold := 70,
          passed := true, feedback := none }
        [{ id := "u1", role := MessageRole.user, content := "vraag",
           timestamp := "t1", metadata := emptyMetadata },
         { id := "a1", role := MessageRole.assistant, content := "antwoord",
           timestamp := "t2", metadata := emptyMetadata }])[0]? =
        some { id := "u1", role := MessageRole.user, content := "vraag",
               timestamp := "t1", metadata := emptyMetadata }) ∧
    (({ id := "u1", role := MessageRole.user, content := "vraag",
        timestamp := "t1", metadata := emptyMetadata } : Message).id = "u1" →
      ∃ r : Message,
        (handleUserInputEvaluation "u1"
          { name := "privacy", score := 90, weight := 1, threshold := 70,
            passed := true, feedback := none }
          [{ id := "u1", role := MessageRole.user, content := "vraag",
             timestamp := "t1", metadata := emptyMetadata },
           { id := "a1", role := MessageRole.assistant, content := "antwoord",
             timestamp := "t2", metadata := emptyMetadata }])[0]? = some r ∧
        r.id = "u1" ∧ r.role = MessageRole.user ∧ r.content = "vraag" ∧
        r.timestamp = "t1" ∧
        r.metadata.iteration = emptyMetadata.iteration ∧
        r.metadata.evaluation = emptyMetadata.evaluation ∧
        r.metadata.streaming_evaluation = emptyMetadata.streaming_evaluation ∧
        r.metadata.inputEvaluation =
          some (appendCriterion
            (emptyMetadata.inputEvaluation.getD emptyStreamingEval)
            { name := "privacy", score := 90, weight := 1, threshold := 70,
              passed := true, feedback := none })) :=
  handleUserInputEvaluation_targets_only_matching_id
    [{ id := "u1", role := MessageRole.user, content := "vraag",
       timestamp := "t1", metadata := emptyMetadata },
     { id := "a1", role := MessageRole.assistant, content := "antwoord",
       timestamp := "t2", metadata := emptyMetadata }]
    "u1"
    { name := "privacy", score := 90, weight := 1, threshold := 70,
      passed := true, feedback := none }
    0
    { id := "u1", role := MessageRole.user, content := "vraag",
      timestamp := "t1", metadata := emptyMetadata }
    rfl

/-- C8: `attachFinalEvaluation` (the `handleJudgeResult` history update)
attaches the final evaluation to the last message exactly when it is an
assistant message — setting `metadata.evaluation` and clearing
`metadata.streaming_evaluation` while preserving its id, role, content,
timestamp, iteration and input-evaluation metadata and every earlier
message — and leaves the whole history unchanged otherwise. -/
theorem attachFinalEvaluation_frame (evaluation : JudgeEvaluation)
    (init : List Message) (lastMsg : Message) :
    (lastMsg.role = MessageRole.assistant →
      attachFinalEvaluation evaluation (init ++ [lastMsg]) =
        init ++
          [{ lastMsg with metadata :=
              { lastMsg.metadata with
                  evaluation := some evaluation,
                  streaming_evaluation := none } }]) ∧
    (lastMsg.role ≠ MessageRole.assistant →
      attachFinalEvaluation evaluation (init ++ [lastMsg]) =
        init ++ [lastMsg]) ∧
    attachFinalEvaluation evaluation [] = [] := by
  refine ⟨?_, ?_, rfl⟩
  · intro hrole
    simp [attachFinalEvaluation, List.getLast?_concat, hrole]
  · intro hrole
    simp [attachFinalEvaluation, List.getLast?_concat, hrole]

/-- C8 witness: a user message followed by an assistant message; the final
evaluation lands on the assistant message only. -/
theorem attachFinalEvaluation_frame_witness :
    (({ id := "a1", role := MessageRole.assistant, content := "antwoord",
        timestamp := "t2", metadata := emptyMetadata } : Message).role =
        MessageRole.assistant →
      attachFinalEvaluation emptyStreamingEval
          ([{ id := "u1", role := MessageRole.user, content := "vraag",
              timestamp := "t1", metadata := emptyMetadata }] ++
            [{ id := "a1", role := MessageRole.assistant,
               content := "antwoord", timestamp := "t2",
               metadata := emptyMetadata }]) =
        [{ id := "u1", role := MessageRole.user, content := "vraag",
           timestamp := "t1", metadata := emptyMetadata }] ++
          [{ ({ id := "a1", role := MessageRole.assistant,
                content := "antwoord", timestamp := "t2",
                metadata := emptyMetadata } : Message) with metadata :=
              { ({ id := "a1", role := MessageRole.assistant,
                   content := "antwoord", timestamp := "t2",
                   metadata := emptyMetadata } : Message).metadata with
                  evaluation := some emptyStreamingEval,
                  streaming_evaluation := none } }]) ∧
    (({ id := "a1", role := MessageRole.assistant, content := "antwoord",
        timestamp := "t2", metadata := emptyMetadata } : Message).role ≠
        MessageRole.assistant →
      attachFinalEvaluation emptyStreamingEval
          ([{ id := "u1", role := MessageRole.user, content := "vraag",
              timestamp := "t1", metadata := emptyMetadata }] ++
            [{ id := "a1", role := MessageRole.assistant,
               content := "antwoord", timestamp := "t2",
               metadata := emptyMetadata }]) =
        [{ id := "u1", role := MessageRole.user, content := "vraag",
           timestamp := "t1", metadata := emptyMetadata }] ++
          [{ id := "a1", role := MessageRole.assistant, content := "antwoord",
             timestamp := "t2", metadata := emptyMetadata }]) ∧
    attachFinalEvaluation emptyStreamingEval [] = [] :=
  attachFinalEvaluation_frame emptyStreamingEval
    [{ id := "u1", role := MessageRole.user, content := "vraag",
       timestamp := "t1", metadata := emptyMetadata }]
    { id := "a1", role := MessageRole.assistant, content := "antwoord",
      timestamp := "t2", metadata := emptyMetadata }

/-- A concrete post-stop component state: the user pressed stop
(`handleStop` has run), history empty, an evaluation pipeline had been in
flight. -/
def stoppedState : ChatState :=
  { messages := [], isLoading := false, isJudging := false,
    currentEvaluation := none, streamingCriteria := none,
    streamingMessage := "", lastUserMessage := "vraag",
    conversationId := some "conv1", inputEvaluation := none,
    isStopped := true }

/-- C2: the code fails the claim at a concrete input.  The suppression of
post-stop events documented by the spec's cancel semantics and by the
source's own "Ignore if stopped" comments does not happen: the mount-only
registration makes every handler close over `isStopped = false`, so the
guards in the chunk/judge handlers never fire, and `handleChatbotResponse`
has no guard at all.  At `stoppedState` — reached from a loading state by
`handleStop`, first conjunct — a delivered `chatbot_chunk` re-appends its
text to the just-cleared streaming message and does not leave the state
unchanged, a `judge_result` still fires the `onEvaluationUpdate` output,
and a `chatbot_response` still appends an assistant message. -/
theorem stop_fails_to_suppress_events :
    handleStop { stoppedState with isLoading := true, isStopped := false } =
      stoppedState ∧
    (step false 7 stoppedState
        (WsEvent.chatbotChunk "deel")).1.streamingMessage = "deel" ∧
    step false 7 stoppedState (WsEvent.chatbotChunk "deel") ≠
      (stoppedState, []) ∧
    (step false 7 stoppedState (WsEvent.judgeResult emptyStreamingEval)).2 =
      [ChatOutput.evaluationUpdate (some emptyStreamingEval)] ∧
    (step false 7 stoppedState
        (WsEvent.chatbotResponse "antwoord" (some 1) none)).1.messages ≠
      stoppedState.messages := by
  refine ⟨rfl, rfl, ?_, rfl, ?_⟩
  · intro hcontra
    have h2 : (step false 7 stoppedState
        (WsEvent.chatbotChunk "deel")).1.streamingMessage =
        stoppedState.streamingMessage := by rw [hcontra]
    simp [step, stoppedState] at h2
  · intro hcontra
    simp [step, stoppedState] at hcontra

/-- C4: streamed `judge_criterion_result` events accumulate by immutable
append: dispatching any sequence of them through the registered handlers
(which closed over `isStopped = false` — the only registration that
occurs) onto a state whose accumulator holds `ev` leaves the accumulator
holding exactly `ev.criteria_scores ++ cs` — every received criterion is
appended at the end in arrival order and no previously accumulated entry
is modified, reordered or removed (in particular, starting from the empty
accumulator installed by `judge_evaluating`, the list equals the received
results). -/
theorem judgeCriterionResult_append_accumulation (now : Nat)
    (cs : List CriterionScore) :
    ∀ (s : ChatState) (ev : JudgeEvaluation),
      s.streamingCriteria = some ev →
      (runEvents false now s
          (cs.map WsEvent.judgeCriterionResult)).streamingCriteria
        = some { ev with criteria_scores := ev.criteria_scores ++ cs } := by
  induction cs with
  | nil =>
      intro s ev hsc
      simpa [runEvents] using hsc
  | cons c rest ih =>
      intro s ev hsc
      have hstep : (step false now s (WsEvent.judgeCriterionResult c)).1 =
          { s with
              streamingCriteria := some (appendCriterion ev c),
              messages :=
                attachStreamingEvaluation (appendCriterion ev c) s.messages }
          := by
        simp [step, hsc]
      have hrun : runEvents false now s
          ((c :: rest).map WsEvent.judgeCriterionResult) =
          runEvents false now
            ((step false now s (WsEvent.judgeCriterionResult c)).1)
            (rest.map WsEvent.judgeCriterionResult) := by
        simp [runEvents]
      rw [hrun, hstep]
      have h2 := ih
        { s with
            streamingCriteria := some (appendCriterion ev c),
            messages :=
              attachStreamingEvaluation (appendCriterion ev c) s.messages }
        (appendCriterion ev c) rfl
      rw [h2]
      simp [appendCriterion]

/-- C4 witness: two streamed criteria land in arrival order on the empty
accumulator installed by `judge_evaluating`. -/
theorem judgeCriterionResult_append_accumulation_witness :
    (runEvents false 7
        { stoppedState with streamingCriteria := some emptyStreamingEval }
        ([{ name := "bias", score := 80, weight := 1, threshold := 70,
            passed := true, feedback := none },
          { name := "impact", score := 55, weight := 1, threshold := 70,
            passed := false, feedback := none }].map
          WsEvent.judgeCriterionResult)).streamingCriteria =
      some { emptyStreamingEval with
              criteria_scores := emptyStreamingEval.criteria_scores ++
                [{ name := "bias", score := 80, weight := 1, threshold := 70,
                   passed := true, feedback := none },
                 { name := "impact", score := 55, weight := 1, threshold := 70,
                   passed := false, feedback := none }] } :=
  judgeCriterionResult_append_accumulation 7
    [{ name := "bias", score := 80, weight := 1, threshold := 70,
       passed := true, feedback := none },
     { name := "impact", score := 55, weight := 1, threshold := 70,
       passed := false, feedback := none }]
    { stoppedState with streamingCriteria := some emptyStreamingEval }
    emptyStreamingEval rfl
